import Mathlib

/-!
Verification development for the bhedi repository (Go): a FASTQ screening
pipeline that matches Dengue-serotype marker fragments ("sankets") against
sequencing reads, scores matches, and emits Parquet rows.

Two source variants are modelled:
  * the streaming HTTP-API variant (src/API/bhedi.go), in namespace `API`;
  * the batch CLI variant (src/unnamed/part_000), in namespace `CLI`.

Go float64 values are modelled by `GoFloat`: an exact rational for finite
values, plus signed infinity and NaN, with the special-value propagation
rules of Go arithmetic and of math.Min / math.Max. Finite arithmetic is
exact (no rounding); every claim settled here depends only on the
algebraic structure, the clamping, and the NaN / infinity propagation,
none of which are affected by rounding of the finite values.

Go strings are modelled as `List Char`; strings.Contains is modelled by
`strContains`, strconv.Atoi by `atoi`, and the int32 conversion applied
when building a Parquet row by `wrap32`.
-/

/-- Go strings, modelled as lists of characters. -/
abbrev Str := List Char

/-- Model of Go float64: exact rational finite values, signed infinity
(`inf true` is positive infinity), and NaN. -/
inductive GoFloat where
  | fin (q : ℚ)
  | inf (pos : Bool)
  | nan
deriving DecidableEq

/-- Go float64 addition on the model: NaN propagates, opposite infinities
give NaN, an infinity absorbs finite summands. -/
def GoFloat.add : GoFloat → GoFloat → GoFloat
  | .nan, _ => .nan
  | _, .nan => .nan
  | .inf p, .inf q => if p = q then .inf p else .nan
  | .inf p, .fin _ => .inf p
  | .fin _, .inf q => .inf q
  | .fin a, .fin b => .fin (a + b)

/-- Go float64 multiplication on the model: NaN propagates, infinity times
zero is NaN, otherwise infinities keep the sign rule. -/
def GoFloat.mul : GoFloat → GoFloat → GoFloat
  | .nan, _ => .nan
  | _, .nan => .nan
  | .inf p, .inf q => .inf (p == q)
  | .inf p, .fin a => if a = 0 then .nan else .inf (p == decide (0 < a))
  | .fin a, .inf q => if a = 0 then .nan else .inf (q == decide (0 < a))
  | .fin a, .fin b => .fin (a * b)

/-- Go float64 division on the model: NaN propagates, Inf/Inf is NaN,
finite/0 is a signed infinity except 0/0 which is NaN (the IEEE rule Go
follows), finite/Inf is 0. -/
def GoFloat.div : GoFloat → GoFloat → GoFloat
  | .nan, _ => .nan
  | _, .nan => .nan
  | .inf _, .inf _ => .nan
  | .inf p, .fin b => if b = 0 then .inf p else .inf (p == decide (0 < b))
  | .fin _, .inf _ => .fin 0
  | .fin a, .fin b =>
      if b = 0 then (if a = 0 then .nan else .inf (decide (0 < a)))
      else .fin (a / b)

/-- Conversion float64(n) for a Go int, exact in the model. -/
def GoFloat.ofInt (n : Int) : GoFloat := .fin (n : ℚ)

/-- Conversion float64(n) for a Go non-negative count, exact in the model. -/
def GoFloat.ofNat (n : Nat) : GoFloat := .fin (n : ℚ)

/-- Model of Go math.Min: NaN if either argument is NaN, negative infinity
dominates, positive infinity is neutral, finite minimum otherwise. -/
def goMin : GoFloat → GoFloat → GoFloat
  | .nan, _ => .nan
  | _, .nan => .nan
  | .inf false, _ => .inf false
  | _, .inf false => .inf false
  | .inf true, y => y
  | x, .inf true => x
  | .fin a, .fin b => .fin (min a b)

/-- Model of Go math.Max: NaN if either argument is NaN, positive infinity
dominates, negative infinity is neutral, finite maximum otherwise. -/
def goMax : GoFloat → GoFloat → GoFloat
  | .nan, _ => .nan
  | _, .nan => .nan
  | .inf true, _ => .inf true
  | _, .inf true => .inf true
  | .inf false, y => y
  | x, .inf false => x
  | .fin a, .fin b => .fin (max a b)

/-- Checks that a model float is a finite value inside the closed unit
interval; NaN and the infinities are rejected. -/
def inUnitRange : GoFloat → Bool
  | .fin q => decide (0 ≤ q ∧ q ≤ 1)
  | _ => false

/-- Digit value of a character, if it is a decimal digit. -/
def digitVal (c : Char) : Option Nat :=
  if '0' ≤ c ∧ c ≤ '9' then some (c.toNat - Char.toNat '0') else none

/-- Accumulating decimal parse of a digit string; fails on any non-digit. -/
def parseDigitsAux : Str → Nat → Option Nat
  | [], acc => some acc
  | c :: rest, acc =>
      match digitVal c with
      | some d => parseDigitsAux rest (acc * 10 + d)
      | none => none

/-- Parse a non-empty all-digit string as a natural number. -/
def parseDigits : Str → Option Nat
  | [] => none
  | s => parseDigitsAux s 0

/-- Model of Go strconv.Atoi: optional sign followed by at least one
decimal digit, nothing else. The 64-bit range check of the Go function is
omitted; no claim settled here depends on inputs of that magnitude. -/
def atoi (s : Str) : Option Int :=
  match s with
  | '+' :: rest => (parseDigits rest).map (fun n => (n : Int))
  | '-' :: rest => (parseDigits rest).map (fun n => -(n : Int))
  | _ => (parseDigits s).map (fun n => (n : Int))

/-- Model of Go strings.Contains(s, pat): pat occurs contiguously in s. -/
def strContains (s pat : Str) : Bool :=
  match s with
  | [] => pat.isEmpty
  | c :: rest => pat.isPrefixOf (c :: rest) || strContains rest pat

/-- Model of the Go conversion int32(n): two-complement wrap-around. -/
def wrap32 (n : Int) : Int := (n + 2 ^ 31) % 2 ^ 32 - 2 ^ 31

theorem strContains_iff (s pat : Str) : strContains s pat = true ↔ pat <:+: s := by
  induction s with
  | nil =>
      simp [strContains, List.isEmpty_iff]
  | cons c rest ih =>
      simp only [strContains, Bool.or_eq_true, List.isPrefixOf_iff_prefix, ih,
        List.infix_cons_iff]

namespace API

/-- Catalog entry, from the SanketInfo struct of src/API/bhedi.go. -/
structure SanketInfo where
  SID : Str
  Serotype : Str
  Sanket : Str
  SLen : Int
  SSRCount : Str
  MLenAvg : Str
  MRCAvg : Str
  PCount : Str
  PLenAvg : Str
deriving DecidableEq

/-- Per-match record, from the MatchInfo struct of src/API/bhedi.go. -/
structure MatchInfo where
  SID : Str
  Sanket : Str
  Serotype : Str
  SLen : Int
  SSRCount : Str
  MLenAvg : Str
  MRCAvg : Str
  PCount : Str
  PLenAvg : Str
  BScore : GoFloat
deriving DecidableEq

/-- Result of processing one read, from the ProcessRecordResult struct of
src/API/bhedi.go. -/
structure ProcessRecordResult where
  ReadID : Str
  Matches : List MatchInfo
  GCPercentage : GoFloat
  TotalCoverage : Int
  MatchesFound : Bool
deriving DecidableEq

/-- One Parquet output row, from the ParquetRecord struct of
src/API/bhedi.go. The TotalCoverage and SLen columns are int32 in the Go
struct; the wrap-around of the conversion is applied where the row is
built. -/
structure ParquetRecord where
  SID : Str
  ReadID : Str
  MatchedSanket : Str
  Serotype : Str
  GCPercentage : GoFloat
  TotalCoverage : Int
  SLen : Int
  SSRCount : Str
  MLenAvg : Str
  MRCAvg : Str
  PCount : Str
  PLenAvg : Str
  BScore : GoFloat
deriving DecidableEq

/-- calculateGCPercentage from src/API/bhedi.go lines 78-81: counts the
characters G and C (strings.Count with a single-character pattern) and
divides by the length, with no guard for the empty sequence. -/
def calculateGCPercentage (seq : Str) : GoFloat :=
  let gcCount := seq.count 'G' + seq.count 'C'
  ((GoFloat.ofNat gcCount).div (GoFloat.ofNat seq.length)).mul (GoFloat.fin 100)

/-- calculateBScore from src/API/bhedi.go lines 82-130 (the streaming
variant): parse the two count fields with Atoi defaulting to 0, base score
0.35 / 0.2 / 0, Lander-Waterman coverage ceiling avg*records/11000,
normalized coverage and length capped at 1, weights 0.37 and 0.4, final
clamp to the unit interval. -/
def calculateBScore (totalCoverage sLen : Int) (ssrCount pCount : Str)
    (avgReadLength : GoFloat) (totalRecords : Int) : GoFloat :=
  let ssrCountInt : Int := (atoi ssrCount).getD 0
  let pCountInt : Int := (atoi pCount).getD 0
  let baseScore : GoFloat :=
    if 0 < ssrCountInt ∧ 0 < pCountInt then GoFloat.fin ((35 : ℚ) / 100)
    else if 0 < ssrCountInt ∨ 0 < pCountInt then GoFloat.fin ((2 : ℚ) / 10)
    else GoFloat.fin 0
  let genomeSize : GoFloat := GoFloat.fin 11000
  let maxTotalCoverage := ((avgReadLength).mul (GoFloat.ofInt totalRecords)).div genomeSize
  let maxExpectedCoverage := maxTotalCoverage
  let normalizedTotalCoverage := goMin ((GoFloat.ofInt totalCoverage).div maxExpectedCoverage) (GoFloat.fin 1)
  let maxSLen : GoFloat := GoFloat.fin 25
  let normalizedSLen := goMin ((GoFloat.ofInt sLen).div maxSLen) (GoFloat.fin 1)
  let weightedTotalCoverage := normalizedTotalCoverage.mul (GoFloat.fin ((37 : ℚ) / 100))
  let weightedSLen := normalizedSLen.mul (GoFloat.fin ((4 : ℚ) / 10))
  let bScore := (baseScore.add weightedTotalCoverage).add weightedSLen
  goMin (goMax bScore (GoFloat.fin 0)) (GoFloat.fin 1)

/-- The MatchInfo literal built inside the processRecord loop
(src/API/bhedi.go lines 164-174); the BScore field is not set there, so it
holds the Go zero value. -/
def mkMatchInfo (info : SanketInfo) : MatchInfo :=
  { SID := info.SID, Sanket := info.Sanket, Serotype := info.Serotype,
    SLen := info.SLen, SSRCount := info.SSRCount, MLenAvg := info.MLenAvg,
    MRCAvg := info.MRCAvg, PCount := info.PCount, PLenAvg := info.PLenAvg,
    BScore := GoFloat.fin 0 }

/-- The statement coverageMap[info.Serotype]++ on an association-list view
of the Go map. -/
def bumpSerotype : List (Str × Nat) → Str → List (Str × Nat)
  | [], sero => [(sero, 1)]
  | (k, v) :: rest, sero =>
      if k = sero then (k, v + 1) :: rest else (k, v) :: bumpSerotype rest sero

/-- Sum of the counts stored in the coverage map: the loop
for _, count := range coverageMap accumulating totalCoverage. -/
def valSum (cm : List (Str × Nat)) : Nat := (cm.map Prod.snd).sum

/-- One iteration of the matching loop of processRecord
(src/API/bhedi.go lines 161-178), acting on the state
(matches, coverageMap, matchesFound). -/
def matchStep (seq : Str) (acc : List MatchInfo × List (Str × Nat) × Bool)
    (info : SanketInfo) : List MatchInfo × List (Str × Nat) × Bool :=
  if strContains seq info.Sanket then
    (acc.1 ++ [mkMatchInfo info], bumpSerotype acc.2.1 info.Serotype, true)
  else acc

/-- processRecord from src/API/bhedi.go lines 156-194. The Go map of
sankets is modelled as a list of its entries; every claim proved about
this function is independent of the enumeration order. -/
def processRecord (seq id : Str) (sankets : List SanketInfo)
    (avgReadLength : GoFloat) (totalRecords : Int) : ProcessRecordResult :=
  let gcPercentage := calculateGCPercentage seq
  let scan := sankets.foldl (matchStep seq) ([], [], false)
  let matchList := scan.1
  let coverageMap := scan.2.1
  let matchesFound := scan.2.2
  let totalCoverage : Int := (valSum coverageMap : Int)
  let scoredMatches := matchList.map (fun m =>
    { m with BScore := calculateBScore totalCoverage m.SLen m.SSRCount m.PCount avgReadLength totalRecords })
  { ReadID := id, Matches := scoredMatches, GCPercentage := gcPercentage,
    TotalCoverage := totalCoverage, MatchesFound := matchesFound }

/-- The rows handed to the Parquet writer for one ProcessRecordResult:
the body of the worker goroutine of processFastqStream
(src/API/bhedi.go lines 287-331). A matching record yields one row per
match, with the int32 conversions of lines 296-297; a record with no
match yields the single sentinel row of lines 314-327. -/
def rowsForResult (result : ProcessRecordResult) : List ParquetRecord :=
  if result.MatchesFound then
    result.Matches.map (fun m =>
      { SID := m.SID, ReadID := result.ReadID, MatchedSanket := m.Sanket,
        Serotype := m.Serotype, GCPercentage := result.GCPercentage,
        TotalCoverage := wrap32 result.TotalCoverage, SLen := wrap32 m.SLen,
        SSRCount := m.SSRCount, MLenAvg := m.MLenAvg, MRCAvg := m.MRCAvg,
        PCount := m.PCount, PLenAvg := m.PLenAvg, BScore := m.BScore })
  else
    [ { SID := [], ReadID := result.ReadID,
        MatchedSanket := ("No Match Found").toList,
        Serotype := ("Unassigned").toList,
        GCPercentage := result.GCPercentage, TotalCoverage := 0, SLen := 0,
        SSRCount := [], MLenAvg := [], MRCAvg := [], PCount := [],
        PLenAvg := [], BScore := GoFloat.fin 0 } ]

/-- Events observed by the Parquet sink during one run. -/
inductive SinkEvent where
  | write (r : ParquetRecord)
  | writeStop
deriving DecidableEq

/-- True exactly on the finalize event. -/
def isStopEvent : SinkEvent → Bool
  | .writeStop => true
  | _ => false

/-- True exactly on a row-write event. -/
def isWriteEvent : SinkEvent → Bool
  | .write _ => true
  | _ => false

/-- Sequentialization of the success path of processFastqStream
(src/API/bhedi.go lines 239-349), as the sequence of events reaching the
Parquet writer. Each input record (id, sequence) is handled by one worker
goroutine whose writes are serialized by parquetWriterMutex; all workers
finish before wg.Wait() returns (line 338), so in every interleaving all
row writes precede both finalize calls, and the multiset of rows written
is the one modelled here (workers are modelled in dispatch order). After
the join, WriteStop is called explicitly at line 343, and then the
deferred WriteStop registered at line 257 runs when the function returns:
two finalize invocations on the success path. -/
def processFastqStreamTrace (records : List (Str × Str))
    (sankets : List SanketInfo) (avgReadLength : GoFloat)
    (totalRecords : Int) : List SinkEvent :=
  (records.flatMap (fun rec =>
    (rowsForResult (processRecord rec.2 rec.1 sankets avgReadLength totalRecords)).map SinkEvent.write))
  ++ [SinkEvent.writeStop, SinkEvent.writeStop]

end API

namespace CLI

/-- Catalog entry, from the SanketInfo struct of src/unnamed/part_000
(the CLI variant has no SID field). -/
structure SanketInfo where
  Serotype : Str
  Sanket : Str
  SLen : Int
  SSRCount : Str
  MLenAvg : Str
  MRCAvg : Str
  PCount : Str
  PLenAvg : Str
deriving DecidableEq

/-- Per-match record, from the MatchInfo struct of src/unnamed/part_000. -/
structure MatchInfo where
  Sanket : Str
  Serotype : Str
  SLen : Int
  SSRCount : Str
  MLenAvg : Str
  MRCAvg : Str
  PCount : Str
  PLenAvg : Str
  BScore : GoFloat
deriving DecidableEq

/-- Result of processing one read, from the ProcessRecordResult struct of
src/unnamed/part_000. -/
structure ProcessRecordResult where
  ReadID : Str
  Matches : List MatchInfo
  GCPercentage : GoFloat
  TotalCoverage : Int
  MatchesFound : Bool
deriving DecidableEq

/-- One Parquet output row, from the ParquetRecord struct of
src/unnamed/part_000 (plain int columns, no SID). -/
structure ParquetRecord where
  ReadID : Str
  MatchedSanket : Str
  Serotype : Str
  GCPercentage : GoFloat
  TotalCoverage : Int
  SLen : Int
  SSRCount : Str
  MLenAvg : Str
  MRCAvg : Str
  PCount : Str
  PLenAvg : Str
  BScore : GoFloat
deriving DecidableEq

/-- calculateGCPercentage from src/unnamed/part_000 lines 73-76: textually
identical to the streaming variant, again with no empty-sequence guard. -/
def calculateGCPercentage (seq : Str) : GoFloat :=
  let gcCount := seq.count 'G' + seq.count 'C'
  ((GoFloat.ofNat gcCount).div (GoFloat.ofNat seq.length)).mul (GoFloat.fin 100)

/-- calculateBScore from src/unnamed/part_000 lines 78-122 (the CLI
variant): base score 0.3 / 0.15 / 0, fixed normalization ceilings 1000
and 100, weights 0.3 and 0.4, final clamp to the unit interval. -/
def calculateBScore (totalCoverage sLen : Int) (ssrCount pCount : Str) : GoFloat :=
  let ssrCountInt : Int := (atoi ssrCount).getD 0
  let pCountInt : Int := (atoi pCount).getD 0
  let baseScore : GoFloat :=
    if 0 < ssrCountInt ∧ 0 < pCountInt then GoFloat.fin ((3 : ℚ) / 10)
    else if 0 < ssrCountInt ∨ 0 < pCountInt then GoFloat.fin ((15 : ℚ) / 100)
    else GoFloat.fin 0
  let maxTotalCoverage : GoFloat := GoFloat.fin 1000
  let maxSLen : GoFloat := GoFloat.fin 100
  let normalizedTotalCoverage := goMin ((GoFloat.ofInt totalCoverage).div maxTotalCoverage) (GoFloat.fin 1)
  let normalizedSLen := goMin ((GoFloat.ofInt sLen).div maxSLen) (GoFloat.fin 1)
  let weightedTotalCoverage := normalizedTotalCoverage.mul (GoFloat.fin ((3 : ℚ) / 10))
  let weightedSLen := normalizedSLen.mul (GoFloat.fin ((4 : ℚ) / 10))
  let bScore := (baseScore.add weightedTotalCoverage).add weightedSLen
  goMin (goMax bScore (GoFloat.fin 0)) (GoFloat.fin 1)

/-- The MatchInfo literal built inside the processRecord loop
(src/unnamed/part_000 lines 132-141); BScore holds the Go zero value. -/
def mkMatchInfo (info : SanketInfo) : MatchInfo :=
  { Sanket := info.Sanket, Serotype := info.Serotype, SLen := info.SLen,
    SSRCount := info.SSRCount, MLenAvg := info.MLenAvg, MRCAvg := info.MRCAvg,
    PCount := info.PCount, PLenAvg := info.PLenAvg, BScore := GoFloat.fin 0 }

/-- One iteration of the matching loop of processRecord
(src/unnamed/part_000 lines 129-145). -/
def matchStep (seq : Str) (acc : List MatchInfo × List (Str × Nat) × Bool)
    (info : SanketInfo) : List MatchInfo × List (Str × Nat) × Bool :=
  if strContains seq info.Sanket then
    (acc.1 ++ [mkMatchInfo info], API.bumpSerotype acc.2.1 info.Serotype, true)
  else acc

/-- processRecord from src/unnamed/part_000 lines 124-161. -/
def processRecord (seq id : Str) (sankets : List SanketInfo) : ProcessRecordResult :=
  let gcPercentage := calculateGCPercentage seq
  let scan := sankets.foldl (matchStep seq) ([], [], false)
  let matchList := scan.1
  let coverageMap := scan.2.1
  let matchesFound := scan.2.2
  let totalCoverage : Int := (API.valSum coverageMap : Int)
  let scoredMatches := matchList.map (fun m =>
    { m with BScore := calculateBScore totalCoverage m.SLen m.SSRCount m.PCount })
  { ReadID := id, Matches := scoredMatches, GCPercentage := gcPercentage,
    TotalCoverage := totalCoverage, MatchesFound := matchesFound }

/-- The rows written for one ProcessRecordResult by the result-drain loop
of processFastqFile (src/unnamed/part_000 lines 237-275): one row per
match for a matching record, one sentinel row with serotype N/A
otherwise. -/
def rowsForResult (result : ProcessRecordResult) : List ParquetRecord :=
  if result.MatchesFound then
    result.Matches.map (fun m =>
      { ReadID := result.ReadID, MatchedSanket := m.Sanket,
        Serotype := m.Serotype, GCPercentage := result.GCPercentage,
        TotalCoverage := result.TotalCoverage, SLen := m.SLen,
        SSRCount := m.SSRCount, MLenAvg := m.MLenAvg, MRCAvg := m.MRCAvg,
        PCount := m.PCount, PLenAvg := m.PLenAvg, BScore := m.BScore })
  else
    [ { ReadID := result.ReadID, MatchedSanket := ("No Match Found").toList,
        Serotype := ("N/A").toList, GCPercentage := result.GCPercentage,
        TotalCoverage := 0, SLen := 0, SSRCount := [], MLenAvg := [],
        MRCAvg := [], PCount := [], PLenAvg := [], BScore := GoFloat.fin 0 } ]

end CLI

/-- Generic helper: a Bool predicate holds somewhere iff the filtered list
is non-empty. -/
theorem any_eq_not_isEmpty_filter {α : Type} (p : α → Bool) (l : List α) :
    l.any p = !(l.filter p).isEmpty := by
  induction l with
  | nil => rfl
  | cons a t ih =>
      cases h : p a <;> simp [List.any_cons, List.filter_cons, h, ih]

namespace API

theorem valSum_nil : valSum [] = 0 := rfl

theorem valSum_cons (k : Str) (v : Nat) (rest : List (Str × Nat)) :
    valSum ((k, v) :: rest) = v + valSum rest := by
  simp [valSum]

theorem valSum_bump (cm : List (Str × Nat)) (s : Str) :
    valSum (bumpSerotype cm s) = valSum cm + 1 := by
  induction cm with
  | nil => rfl
  | cons kv rest ih =>
      obtain ⟨k, v⟩ := kv
      by_cases h : k = s
      · simp only [bumpSerotype, if_pos h, valSum_cons]
        omega
      · simp only [bumpSerotype, if_neg h, valSum_cons, ih]
        omega

theorem matchScan_fst (seq : Str) (l : List SanketInfo) (ms : List MatchInfo)
    (cm : List (Str × Nat)) (mf : Bool) :
    (l.foldl (matchStep seq) (ms, cm, mf)).1
      = ms ++ (l.filter (fun i => strContains seq i.Sanket)).map mkMatchInfo := by
  induction l generalizing ms cm mf with
  | nil => simp
  | cons info t ih =>
      cases h : strContains seq info.Sanket <;>
        simp [List.foldl_cons, matchStep, h, List.filter_cons, ih]

theorem matchScan_cov (seq : Str) (l : List SanketInfo) (ms : List MatchInfo)
    (cm : List (Str × Nat)) (mf : Bool) :
    valSum (l.foldl (matchStep seq) (ms, cm, mf)).2.1
      = valSum cm + (l.filter (fun i => strContains seq i.Sanket)).length := by
  induction l generalizing ms cm mf with
  | nil => simp
  | cons info t ih =>
      cases h : strContains seq info.Sanket
      · simp [List.foldl_cons, matchStep, h, List.filter_cons, ih]
      · simp [List.foldl_cons, matchStep, h, List.filter_cons, ih, valSum_bump]
        omega

theorem matchScan_found (seq : Str) (l : List SanketInfo) (ms : List MatchInfo)
    (cm : List (Str × Nat)) (mf : Bool) :
    (l.foldl (matchStep seq) (ms, cm, mf)).2.2
      = (mf || l.any (fun i => strContains seq i.Sanket)) := by
  induction l generalizing ms cm mf with
  | nil => simp
  | cons info t ih =>
      cases h : strContains seq info.Sanket <;>
        simp [List.foldl_cons, matchStep, h, List.any_cons, ih]

theorem processRecord_ReadID (seq id : Str) (sankets : List SanketInfo)
    (avg : GoFloat) (tr : Int) :
    (processRecord seq id sankets avg tr).ReadID = id := rfl

theorem processRecord_GC (seq id : Str) (sankets : List SanketInfo)
    (avg : GoFloat) (tr : Int) :
    (processRecord seq id sankets avg tr).GCPercentage = calculateGCPercentage seq := rfl

/-- The scored MatchInfo a catalog entry contributes when it matches,
given the total coverage of the read. -/
def scoredMatch (avgReadLength : GoFloat) (totalRecords tc : Int)
    (info : SanketInfo) : MatchInfo :=
  { mkMatchInfo info with
    BScore := calculateBScore tc info.SLen info.SSRCount info.PCount avgReadLength totalRecords }

theorem processRecord_Matches (seq id : Str) (sankets : List SanketInfo)
    (avg : GoFloat) (tr : Int) :
    (processRecord seq id sankets avg tr).Matches
      = (sankets.filter (fun i => strContains seq i.Sanket)).map
          (scoredMatch avg tr
            ((sankets.filter (fun i => strContains seq i.Sanket)).length : Int)) := by
  unfold processRecord
  simp [matchScan_fst, matchScan_cov, valSum_nil, scoredMatch, mkMatchInfo]

theorem processRecord_TotalCoverage (seq id : Str) (sankets : List SanketInfo)
    (avg : GoFloat) (tr : Int) :
    (processRecord seq id sankets avg tr).TotalCoverage
      = ((sankets.filter (fun i => strContains seq i.Sanket)).length : Int) := by
  unfold processRecord
  simp [matchScan_cov, valSum_nil]

theorem processRecord_MatchesFound (seq id : Str) (sankets : List SanketInfo)
    (avg : GoFloat) (tr : Int) :
    (processRecord seq id sankets avg tr).MatchesFound
      = sankets.any (fun i => strContains seq i.Sanket) := by
  unfold processRecord
  simp [matchScan_found]

theorem totalCoverage_eq_matches_length (seq id : Str) (sankets : List SanketInfo)
    (avg : GoFloat) (tr : Int) :
    (processRecord seq id sankets avg tr).TotalCoverage
      = ((processRecord seq id sankets avg tr).Matches.length : Int) := by
  rw [processRecord_TotalCoverage, processRecord_Matches]
  simp

theorem scoredMatch_Sanket (avg : GoFloat) (tr tc : Int) (info : SanketInfo) :
    (scoredMatch avg tr tc info).Sanket = info.Sanket := rfl

theorem rowsForResult_length (res : ProcessRecordResult) :
    (rowsForResult res).length = if res.MatchesFound then res.Matches.length else 1 := by
  unfold rowsForResult
  split <;> simp

theorem rowsForResult_of_found (res : ProcessRecordResult)
    (h : res.MatchesFound = true) :
    rowsForResult res = res.Matches.map (fun m =>
      { SID := m.SID, ReadID := res.ReadID, MatchedSanket := m.Sanket,
        Serotype := m.Serotype, GCPercentage := res.GCPercentage,
        TotalCoverage := wrap32 res.TotalCoverage, SLen := wrap32 m.SLen,
        SSRCount := m.SSRCount, MLenAvg := m.MLenAvg, MRCAvg := m.MRCAvg,
        PCount := m.PCount, PLenAvg := m.PLenAvg, BScore := m.BScore }) := by
  unfold rowsForResult
  rw [if_pos h]

theorem rowsForResult_of_not_found (res : ProcessRecordResult)
    (h : res.MatchesFound = false) :
    rowsForResult res
      = [ { SID := [], ReadID := res.ReadID,
            MatchedSanket := ("No Match Found").toList,
            Serotype := ("Unassigned").toList, GCPercentage := res.GCPercentage,
            TotalCoverage := 0, SLen := 0, SSRCount := [], MLenAvg := [],
            MRCAvg := [], PCount := [], PLenAvg := [],
            BScore := GoFloat.fin 0 } ] := by
  unfold rowsForResult
  rw [h]
  simp

/-- Every row written for one result carries the same total-coverage
value: the per-match rows copy int32(result.TotalCoverage), and the
sentinel row writes 0, which agrees whenever a no-match result has
totalCoverage 0. -/
theorem rowsForResult_TotalCoverage (res : ProcessRecordResult)
    (h0 : res.MatchesFound = false → res.TotalCoverage = 0) :
    (rowsForResult res).map ParquetRecord.TotalCoverage
      = List.replicate (rowsForResult res).length (wrap32 res.TotalCoverage) := by
  by_cases h : res.MatchesFound = true
  · rw [rowsForResult_of_found _ h, List.map_map]
    refine List.eq_replicate_iff.mpr ⟨by simp, fun b hb => ?_⟩
    obtain ⟨m, hm, rfl⟩ := List.mem_map.mp hb
    rfl
  · have hf : res.MatchesFound = false := by
      cases hx : res.MatchesFound
      · rfl
      · exact absurd hx h
    rw [rowsForResult_of_not_found _ hf, h0 hf]
    norm_num [wrap32]

end API

namespace CLI

theorem matchScanCLI_found (seq : Str) (l : List SanketInfo) (ms : List MatchInfo)
    (cm : List (Str × Nat)) (mf : Bool) :
    (l.foldl (matchStep seq) (ms, cm, mf)).2.2
      = (mf || l.any (fun i => strContains seq i.Sanket)) := by
  induction l generalizing ms cm mf with
  | nil => simp
  | cons info t ih =>
      cases h : strContains seq info.Sanket <;>
        simp [List.foldl_cons, matchStep, h, List.any_cons, ih]

theorem processRecordCLI_MatchesFound (seq id : Str) (sankets : List SanketInfo) :
    (processRecord seq id sankets).MatchesFound
      = sankets.any (fun i => strContains seq i.Sanket) := by
  unfold processRecord
  simp [matchScanCLI_found]

theorem processRecordCLI_ReadID (seq id : Str) (sankets : List SanketInfo) :
    (processRecord seq id sankets).ReadID = id := rfl

theorem processRecordCLI_GC (seq id : Str) (sankets : List SanketInfo) :
    (processRecord seq id sankets).GCPercentage = calculateGCPercentage seq := rfl

end CLI

/-! ### Arithmetic facts about the GoFloat model -/

theorem mul_fin_fin (a b : ℚ) : (GoFloat.fin a).mul (GoFloat.fin b) = GoFloat.fin (a * b) := rfl

theorem add_fin_fin (a b : ℚ) : (GoFloat.fin a).add (GoFloat.fin b) = GoFloat.fin (a + b) := rfl

theorem negInf_add_fin (a : ℚ) : (GoFloat.inf false).add (GoFloat.fin a) = GoFloat.inf false := rfl

theorem fin_add_negInf (a : ℚ) : (GoFloat.fin a).add (GoFloat.inf false) = GoFloat.inf false := rfl

theorem goMax_negInf_fin (b : ℚ) : goMax (GoFloat.inf false) (GoFloat.fin b) = GoFloat.fin b := rfl

theorem goMin_fin_fin (a b : ℚ) : goMin (GoFloat.fin a) (GoFloat.fin b) = GoFloat.fin (min a b) := rfl

theorem goMin_posInf_fin (b : ℚ) : goMin (GoFloat.inf true) (GoFloat.fin b) = GoFloat.fin b := rfl

theorem goMin_negInf_fin (b : ℚ) : goMin (GoFloat.inf false) (GoFloat.fin b) = GoFloat.inf false := rfl

theorem goMax_fin_fin (a b : ℚ) : goMax (GoFloat.fin a) (GoFloat.fin b) = GoFloat.fin (max a b) := rfl

theorem div_fin_fin_of_ne (a b : ℚ) (hb : b ≠ 0) :
    (GoFloat.fin a).div (GoFloat.fin b) = GoFloat.fin (a / b) := by
  simp [GoFloat.div, hb]

theorem div_fin_zero_pos (a : ℚ) (ha : 0 < a) :
    (GoFloat.fin a).div (GoFloat.fin 0) = GoFloat.inf true := by
  simp [GoFloat.div, ha, ha.ne']

theorem div_fin_zero_neg (a : ℚ) (ha : a < 0) :
    (GoFloat.fin a).div (GoFloat.fin 0) = GoFloat.inf false := by
  simp [GoFloat.div, ha.ne, not_lt.mpr ha.le]

theorem div_fin_11000 (x : ℚ) :
    (GoFloat.fin x).div (GoFloat.fin 11000) = GoFloat.fin (x / 11000) :=
  div_fin_fin_of_ne x 11000 (by norm_num)

theorem div_fin_25 (x : ℚ) :
    (GoFloat.fin x).div (GoFloat.fin 25) = GoFloat.fin (x / 25) :=
  div_fin_fin_of_ne x 25 (by norm_num)

theorem mul_negInf_fin_pos (b : ℚ) (hb : 0 < b) :
    (GoFloat.inf false).mul (GoFloat.fin b) = GoFloat.inf false := by
  simp [GoFloat.mul, hb, hb.ne']

theorem div_fin_zero_zero : (GoFloat.fin 0).div (GoFloat.fin 0) = GoFloat.nan := by
  simp [GoFloat.div]

theorem goMin_nan_left (x : GoFloat) : goMin GoFloat.nan x = GoFloat.nan := by
  cases x with
  | fin q => rfl
  | inf p => cases p <;> rfl
  | nan => rfl

theorem goMax_nan_left (x : GoFloat) : goMax GoFloat.nan x = GoFloat.nan := by
  cases x with
  | fin q => rfl
  | inf p => cases p <;> rfl
  | nan => rfl

theorem nan_mul (x : GoFloat) : GoFloat.nan.mul x = GoFloat.nan := by
  cases x <;> rfl

theorem nan_add (x : GoFloat) : GoFloat.nan.add x = GoFloat.nan := by
  cases x <;> rfl

theorem add_nan (x : GoFloat) : x.add GoFloat.nan = GoFloat.nan := by
  cases x <;> rfl

theorem isEmpty_map {α β : Type} (f : α → β) (l : List α) :
    (l.map f).isEmpty = l.isEmpty := by
  cases l <;> rfl

theorem inUnitRange_clamp (q : ℚ) :
    inUnitRange (goMin (goMax (GoFloat.fin q) (GoFloat.fin 0)) (GoFloat.fin 1)) = true := by
  rw [goMax_fin_fin, goMin_fin_fin]
  simp only [inUnitRange, decide_eq_true_eq]
  exact ⟨le_min (le_max_right q 0) zero_le_one, min_le_right _ 1⟩

theorem base_is_fin (x y : Int) :
    ∃ b : ℚ, (if 0 < x ∧ 0 < y then GoFloat.fin ((35 : ℚ) / 100)
      else if 0 < x ∨ 0 < y then GoFloat.fin ((2 : ℚ) / 10)
      else GoFloat.fin 0) = GoFloat.fin b := by
  split
  · exact ⟨_, rfl⟩
  · split
    · exact ⟨_, rfl⟩
    · exact ⟨_, rfl⟩

/-- The normalized-coverage sub-expression of the streaming Scorer is a
finite value or negative infinity, for any finite nonzero-or-excused
ceiling: NaN only arises from 0/0. -/
theorem normCoverage_cases (tc : Int) (c : ℚ) (h : c = 0 → tc ≠ 0) :
    (∃ x, goMin ((GoFloat.fin (tc : ℚ)).div (GoFloat.fin c)) (GoFloat.fin 1) = GoFloat.fin x)
    ∨ goMin ((GoFloat.fin (tc : ℚ)).div (GoFloat.fin c)) (GoFloat.fin 1) = GoFloat.inf false := by
  by_cases hc : c = 0
  · subst hc
    have htc : (tc : ℚ) ≠ 0 := Int.cast_ne_zero.mpr (h rfl)
    rcases lt_or_gt_of_ne htc with hneg | hpos
    · right
      rw [div_fin_zero_neg _ hneg, goMin_negInf_fin]
    · left
      exact ⟨1, by rw [div_fin_zero_pos _ hpos, goMin_posInf_fin]⟩
  · left
    exact ⟨_, by rw [div_fin_fin_of_ne _ _ hc, goMin_fin_fin]⟩

/-- The final combination and clamp of the streaming Scorer lands in the
unit interval whenever the normalized coverage is finite or negative
infinity (the only non-NaN shapes it can take). -/
theorem score_combination_range (b w : ℚ) (ntc : GoFloat)
    (hn : (∃ x, ntc = GoFloat.fin x) ∨ ntc = GoFloat.inf false) :
    inUnitRange (goMin (goMax
      (((GoFloat.fin b).add (ntc.mul (GoFloat.fin ((37 : ℚ) / 100)))).add (GoFloat.fin w))
      (GoFloat.fin 0)) (GoFloat.fin 1)) = true := by
  rcases hn with ⟨x, rfl⟩ | rfl
  · rw [mul_fin_fin, add_fin_fin, add_fin_fin]
    exact inUnitRange_clamp _
  · rw [mul_negInf_fin_pos _ (by norm_num), fin_add_negInf, negInf_add_fin,
      goMax_negInf_fin, goMin_fin_fin]
    decide

/-! ### Concrete fixtures used by counterexamples and witnesses -/

/-- The digit string 1, a well-formed repeat or palindrome count. -/
def strOne : Str := ("1").toList

/-- Example marker m1 of serotype DENV-1 with fragment ACGT (the catalog
of the end-to-end scenarios of the spec). -/
def exM1 : API.SanketInfo :=
  { SID := ("m1").toList, Serotype := ("DENV-1").toList,
    Sanket := ("ACGT").toList, SLen := 4, SSRCount := strOne,
    MLenAvg := ("3").toList, MRCAvg := ("2").toList, PCount := strOne,
    PLenAvg := ("4").toList }

/-- Example marker m2 of the same serotype DENV-1 with fragment TTTT. -/
def exM2 : API.SanketInfo :=
  { SID := ("m2").toList, Serotype := ("DENV-1").toList,
    Sanket := ("TTTT").toList, SLen := 4, SSRCount := strOne,
    MLenAvg := ("3").toList, MRCAvg := ("2").toList, PCount := strOne,
    PLenAvg := ("4").toList }

/-- A catalog holding two markers of the same serotype. -/
def exCatalog2 : List API.SanketInfo := [exM1, exM2]

/-- A read containing both example fragments. -/
def exSeq : Str := ("ACGTTTTT").toList

/-- The id of the example read. -/
def exId : Str := ("r1").toList

/-- The CLI-variant twin of the example marker m1. -/
def exM1C : CLI.SanketInfo :=
  { Serotype := ("DENV-1").toList, Sanket := ("ACGT").toList, SLen := 4,
    SSRCount := strOne, MLenAvg := ("3").toList, MRCAvg := ("2").toList,
    PCount := strOne, PLenAvg := ("4").toList }

/-- A read matching nothing in the example catalog. -/
def exSeqNoMatch : Str := ("GGGGG").toList

/-- The input of the concurrency scenario: a single record that matches
two markers. -/
def exRecords : List (Str × Str) := [(exId, exSeq)]

/-! ### Definitions following the words of the spec, for comparison -/

/-- The Scorer algorithm exactly as the spec words it (section 4.2 and
claim C3): parse the repeat-count and palindrome-count strings defaulting
to 0, base 0.35 / 0.2 / 0, ceiling = averageReadLength times
totalRecordCount over 11000, normCoverage = min(totalCoverage / ceiling, 1),
normLength = min(markerLength / maxMarkerLength, 1) for a fixed maximum
marker-length constant, score = base + normCoverage
times 0.37 + normLength times 0.4 summed in that order, clamped to the
unit interval. -/
def scorerSpecAlgorithm (maxMarkerLength : ℚ) (totalCoverage markerLength : Int)
    (repeatCountStr palindromeCountStr : Str) (averageReadLength : GoFloat)
    (totalRecordCount : Int) : GoFloat :=
  let repeatCount : Int := (atoi repeatCountStr).getD 0
  let palindromeCount : Int := (atoi palindromeCountStr).getD 0
  let base : GoFloat :=
    if 0 < repeatCount ∧ 0 < palindromeCount then GoFloat.fin ((35 : ℚ) / 100)
    else if 0 < repeatCount ∨ 0 < palindromeCount then GoFloat.fin ((2 : ℚ) / 10)
    else GoFloat.fin 0
  let ceiling := (averageReadLength.mul (GoFloat.ofInt totalRecordCount)).div (GoFloat.fin 11000)
  let normCoverage := goMin ((GoFloat.ofInt totalCoverage).div ceiling) (GoFloat.fin 1)
  let normLength := goMin ((GoFloat.ofInt markerLength).div (GoFloat.fin maxMarkerLength)) (GoFloat.fin 1)
  let score := (base.add (normCoverage.mul (GoFloat.fin ((37 : ℚ) / 100)))).add
    (normLength.mul (GoFloat.fin ((4 : ℚ) / 10)))
  goMin (goMax score (GoFloat.fin 0)) (GoFloat.fin 1)

/-- The quantity named by claim C1: the number of distinct serotypes with
at least one matched marker, following the words of the spec. -/
def distinctSerotypeCount (ms : List API.MatchInfo) : Nat :=
  ((ms.map API.MatchInfo.Serotype).dedup).length

/-! ### Claim theorems -/

/-- C3: the streaming-variant Scorer computes its score by exactly the
algorithm the spec states, with the fixed maximum marker-length constant
instantiated at 25: the source function and the spec-worded algorithm are
equal on every input. -/
theorem calculateBScore_follows_spec_algorithm (tc sl : Int) (ssr p : Str)
    (avg : GoFloat) (tr : Int) :
    API.calculateBScore tc sl ssr p avg tr = scorerSpecAlgorithm 25 tc sl ssr p avg tr := rfl

/-- C7: the streaming Scorer is a deterministic pure function: two
invocations on equal argument tuples return equal results. In this model
every Go float64 operation of the function is a mathematical function of
its operands, there is no randomness, and the summation order is fixed by
the expression tree, so the result is identical. -/
theorem bscore_deterministic (tc₁ tc₂ sl₁ sl₂ : Int) (ssr₁ ssr₂ p₁ p₂ : Str)
    (avg₁ avg₂ : GoFloat) (tr₁ tr₂ : Int)
    (h₁ : tc₁ = tc₂) (h₂ : sl₁ = sl₂) (h₃ : ssr₁ = ssr₂) (h₄ : p₁ = p₂)
    (h₅ : avg₁ = avg₂) (h₆ : tr₁ = tr₂) :
    API.calculateBScore tc₁ sl₁ ssr₁ p₁ avg₁ tr₁
      = API.calculateBScore tc₂ sl₂ ssr₂ p₂ avg₂ tr₂ := by
  subst h₁ h₂ h₃ h₄ h₅ h₆
  rfl

/-- Witness for C7 at a concrete argument tuple. -/
theorem bscore_deterministic_witness :
    API.calculateBScore 2 4 strOne strOne (GoFloat.fin 150) 10
      = API.calculateBScore 2 4 strOne strOne (GoFloat.fin 150) 10 :=
  bscore_deterministic 2 2 4 4 strOne strOne strOne strOne
    (GoFloat.fin 150) (GoFloat.fin 150) 10 10 rfl rfl rfl rfl rfl rfl

/-- C9: every RecordOutcome of the streaming processRecord has
totalCoverage equal to the number of matched markers (the length of the
matches list, because the per-serotype tallies are summed), and
matchesFound true exactly when the matches list is non-empty. -/
theorem outcome_invariants (seq id : Str) (sankets : List API.SanketInfo)
    (avg : GoFloat) (tr : Int) :
    (API.processRecord seq id sankets avg tr).TotalCoverage
      = ((API.processRecord seq id sankets avg tr).Matches.length : Int)
    ∧ (API.processRecord seq id sankets avg tr).MatchesFound
      = !(API.processRecord seq id sankets avg tr).Matches.isEmpty := by
  refine ⟨API.totalCoverage_eq_matches_length seq id sankets avg tr, ?_⟩
  rw [API.processRecord_MatchesFound, API.processRecord_Matches,
    any_eq_not_isEmpty_filter, isEmpty_map]

/-- C10: the GC computation counts only the uppercase characters G and C,
so every non-empty all-lowercase sequence gets GC percentage 0. -/
theorem gc_lowercase_zero (s : Str) (hne : s ≠ [])
    (hlow : ∀ c ∈ s, c.isLower = true) :
    API.calculateGCPercentage s = GoFloat.fin 0 := by
  have hG : s.count 'G' = 0 := by
    rw [List.count_eq_zero]
    intro hmem
    exact absurd (hlow _ hmem) (by decide)
  have hC : s.count 'C' = 0 := by
    rw [List.count_eq_zero]
    intro hmem
    exact absurd (hlow _ hmem) (by decide)
  have hlen : ((s.length : ℚ)) ≠ 0 := by
    have : s.length ≠ 0 := by
      simpa [List.length_eq_zero] using hne
    exact_mod_cast this
  unfold API.calculateGCPercentage
  rw [hG, hC]
  show (((GoFloat.ofNat 0).div (GoFloat.ofNat s.length)).mul (GoFloat.fin 100)) = GoFloat.fin 0
  unfold GoFloat.ofNat
  rw [div_fin_fin_of_ne _ _ hlen, mul_fin_fin]
  norm_num

/-- Witness for C10 on the all-lowercase read gcgc. -/
theorem gc_lowercase_zero_witness :
    API.calculateGCPercentage (("gcgc").toList) = GoFloat.fin 0 :=
  gc_lowercase_zero (("gcgc").toList) (by decide) (by decide)

/-- C5 counterexample: the GC computation applied to the empty sequence
returns NaN (the 0/0 division is not guarded), not 0, in both variants. -/
theorem gc_empty_not_zero :
    API.calculateGCPercentage [] = GoFloat.nan
    ∧ ¬ API.calculateGCPercentage [] = GoFloat.fin 0
    ∧ CLI.calculateGCPercentage [] = GoFloat.nan := by
  decide

/-- C5 amended: the GC computation applied to the empty sequence returns
NaN (the zero-length case is not handled), and this NaN propagates into
the gcPercentage field of the RecordOutcome. -/
theorem gc_empty_nan_propagates (id : Str) (sankets : List API.SanketInfo)
    (avg : GoFloat) (tr : Int) :
    API.calculateGCPercentage [] = GoFloat.nan
    ∧ (API.processRecord [] id sankets avg tr).GCPercentage = GoFloat.nan := by
  refine ⟨by decide, ?_⟩
  rw [API.processRecord_GC]
  decide

/-- C4 counterexample: with totalRecordCount = 0 and averageReadLength = 0
the coverage ceiling is 0, and with totalCoverage = 0 the normalization
divides 0 by 0; the resulting NaN survives the clamp, so the returned
score is NaN and not in the unit interval. -/
theorem bscore_nan_on_zero_stats :
    API.calculateBScore 0 5 strOne strOne (GoFloat.fin 0) 0 = GoFloat.nan
    ∧ inUnitRange (API.calculateBScore 0 5 strOne strOne (GoFloat.fin 0) 0) = false := by
  obtain ⟨b, hb⟩ := base_is_fin ((atoi strOne).getD 0) ((atoi strOne).getD 0)
  have h1 : API.calculateBScore 0 5 strOne strOne (GoFloat.fin 0) 0 = GoFloat.nan := by
    simp only [API.calculateBScore, GoFloat.ofInt, mul_fin_fin, div_fin_11000,
      div_fin_25, goMin_fin_fin, hb]
    norm_num
    rw [div_fin_zero_zero, goMin_nan_left, nan_mul, add_nan, nan_add,
      goMax_nan_left, goMin_nan_left]
  exact ⟨h1, by rw [h1]; rfl⟩

/-- C4 amended: for every finite averageReadLength and every combination
of the other Scorer arguments, the returned score lies in the unit
interval, provided the case of a zero coverage ceiling together with zero
totalCoverage is excluded (there the 0/0 normalization returns NaN). -/
theorem bscore_in_unit_range (tc sl : Int) (ssr p : Str) (a : ℚ) (tr : Int)
    (h : a * (tr : ℚ) = 0 → tc ≠ 0) :
    inUnitRange (API.calculateBScore tc sl ssr p (GoFloat.fin a) tr) = true := by
  obtain ⟨b, hb⟩ := base_is_fin ((atoi ssr).getD 0) ((atoi p).getD 0)
  simp only [API.calculateBScore, GoFloat.ofInt, mul_fin_fin, div_fin_11000,
    div_fin_25, goMin_fin_fin, hb]
  have hquot : a * (tr : ℚ) / 11000 = 0 → tc ≠ 0 := by
    intro hz
    refine h ?_
    rcases div_eq_zero_iff.mp hz with h0 | h0
    · exact h0
    · norm_num at h0
  rcases normCoverage_cases tc (a * (tr : ℚ) / 11000) hquot with ⟨x, hx⟩ | hx
  · rw [hx]
    exact score_combination_range b _ _ (Or.inl ⟨x, rfl⟩)
  · rw [hx]
    exact score_combination_range b _ _ (Or.inr rfl)

/-- Witness for the amended C4: zero run statistics but positive coverage
still give a score inside the unit interval. -/
theorem bscore_in_unit_range_witness :
    inUnitRange (API.calculateBScore 3 4 strOne strOne (GoFloat.fin 0) 0) = true :=
  bscore_in_unit_range 3 4 strOne strOne 0 0 (fun _ => by decide)

set_option maxRecDepth 100000 in
/-- C1 counterexample: on a read matched by two markers of the same
serotype, totalCoverage is 2 (the raw match count), while the number of
distinct serotypes with at least one matched marker is 1; in particular
totalCoverage is not 1 as the claim requires. -/
theorem totalCoverage_not_distinct_serotypes :
    (API.processRecord exSeq exId exCatalog2 (GoFloat.fin 150) 1).TotalCoverage = 2
    ∧ distinctSerotypeCount (API.processRecord exSeq exId exCatalog2 (GoFloat.fin 150) 1).Matches = 1
    ∧ ¬ (API.processRecord exSeq exId exCatalog2 (GoFloat.fin 150) 1).TotalCoverage = 1 := by
  refine ⟨by decide, by decide, by decide⟩

/-- C1 amended: totalCoverage equals the raw count of matched markers
(the per-serotype tallies are summed, not counted as distinct keys), so
two same-serotype markers matching one read give totalCoverage 2; every
per-match output row of the read carries this same totalCoverage value
(after the int32 conversion). -/
theorem totalCoverage_counts_matched_markers (seq id : Str)
    (sankets : List API.SanketInfo) (avg : GoFloat) (tr : Int) :
    (API.processRecord seq id sankets avg tr).TotalCoverage
      = ((API.processRecord seq id sankets avg tr).Matches.length : Int)
    ∧ (API.rowsForResult (API.processRecord seq id sankets avg tr)).map API.ParquetRecord.TotalCoverage
      = List.replicate (API.rowsForResult (API.processRecord seq id sankets avg tr)).length
          (wrap32 (API.processRecord seq id sankets avg tr).TotalCoverage) := by
  refine ⟨API.totalCoverage_eq_matches_length seq id sankets avg tr,
    API.rowsForResult_TotalCoverage _ (fun hf => ?_)⟩
  rw [API.processRecord_TotalCoverage]
  have hfilter : sankets.filter (fun i => strContains seq i.Sanket) = [] := by
    rw [API.processRecord_MatchesFound] at hf
    rw [List.filter_eq_nil_iff]
    intro a ha
    simpa using List.any_eq_false.mp hf a ha
  rw [hfilter]
  rfl

/-- C2: a catalog marker appears in the match set of a read exactly when
its fragment occurs as a literal, case-sensitive, contiguous substring of
the read; the match set is built by substring containment alone, with no
mismatch tolerance and no reverse complement. -/
theorem match_set_iff_substring (seq id : Str) (sankets : List API.SanketInfo)
    (avg : GoFloat) (tr : Int) (info : API.SanketInfo) (hmem : info ∈ sankets) :
    (∃ m ∈ (API.processRecord seq id sankets avg tr).Matches, m.Sanket = info.Sanket)
      ↔ info.Sanket <:+: seq := by
  rw [API.processRecord_Matches]
  constructor
  · rintro ⟨m, hm, hs⟩
    obtain ⟨i, hi, rfl⟩ := List.mem_map.mp hm
    have hp : strContains seq i.Sanket = true := (List.mem_filter.mp hi).2
    rw [API.scoredMatch_Sanket] at hs
    rw [← hs]
    exact (strContains_iff seq i.Sanket).mp hp
  · intro hinf
    refine ⟨API.scoredMatch avg tr
        ((sankets.filter (fun i => strContains seq i.Sanket)).length : Int) info,
      ?_, ?_⟩
    · exact List.mem_map_of_mem _
        (List.mem_filter.mpr ⟨hmem, (strContains_iff seq info.Sanket).mpr hinf⟩)
    · exact API.scoredMatch_Sanket avg tr _ info

/-- Witness for C2 on the example read and catalog. -/
theorem match_set_iff_substring_witness :
    ((∃ m ∈ (API.processRecord exSeq exId exCatalog2 (GoFloat.fin 150) 1).Matches,
        m.Sanket = exM1.Sanket) ↔ exM1.Sanket <:+: exSeq) :=
  match_set_iff_substring exSeq exId exCatalog2 (GoFloat.fin 150) 1 exM1 (by decide)

/-- C6: a record matching no marker yields exactly one output row, with
matched-marker field No Match Found, serotype Unassigned in the streaming
variant and N/A in the CLI variant, and score exactly 0. -/
theorem no_match_single_sentinel_row (seq id : Str)
    (sankets : List API.SanketInfo) (sanketsC : List CLI.SanketInfo)
    (avg : GoFloat) (tr : Int)
    (hA : ∀ i ∈ sankets, strContains seq i.Sanket = false)
    (hC : ∀ i ∈ sanketsC, strContains seq i.Sanket = false) :
    API.rowsForResult (API.processRecord seq id sankets avg tr)
      = [ { SID := [], ReadID := id, MatchedSanket := ("No Match Found").toList,
            Serotype := ("Unassigned").toList,
            GCPercentage := API.calculateGCPercentage seq, TotalCoverage := 0,
            SLen := 0, SSRCount := [], MLenAvg := [], MRCAvg := [],
            PCount := [], PLenAvg := [], BScore := GoFloat.fin 0 } ]
    ∧ CLI.rowsForResult (CLI.processRecord seq id sanketsC)
      = [ { ReadID := id, MatchedSanket := ("No Match Found").toList,
            Serotype := ("N/A").toList,
            GCPercentage := CLI.calculateGCPercentage seq, TotalCoverage := 0,
            SLen := 0, SSRCount := [], MLenAvg := [], MRCAvg := [],
            PCount := [], PLenAvg := [], BScore := GoFloat.fin 0 } ] := by
  constructor
  · have hf : (API.processRecord seq id sankets avg tr).MatchesFound = false := by
      rw [API.processRecord_MatchesFound]
      exact List.any_eq_false.mpr (fun i hi => by simp [hA i hi])
    simp [API.rowsForResult, hf, API.processRecord_ReadID, API.processRecord_GC]
  · have hf : (CLI.processRecord seq id sanketsC).MatchesFound = false := by
      rw [CLI.processRecordCLI_MatchesFound]
      exact List.any_eq_false.mpr (fun i hi => by simp [hC i hi])
    simp [CLI.rowsForResult, hf, CLI.processRecordCLI_ReadID, CLI.processRecordCLI_GC]

namespace API

theorem isStopEvent_write (r : ParquetRecord) :
    isStopEvent (SinkEvent.write r) = false := rfl

theorem isWriteEvent_write (r : ParquetRecord) :
    isWriteEvent (SinkEvent.write r) = true := rfl

theorem countP_stop_write_flatMap (records : List (Str × Str))
    (f : Str × Str → List ParquetRecord) :
    ((records.flatMap (fun rec => (f rec).map SinkEvent.write)).countP isStopEvent) = 0 := by
  rw [List.countP_eq_zero]
  intro a ha
  obtain ⟨rec, _, hmem⟩ := List.mem_flatMap.mp ha
  obtain ⟨r, _, rfl⟩ := List.mem_map.mp hmem
  simp [isStopEvent_write]

theorem countP_write_flatMap (records : List (Str × Str))
    (f : Str × Str → List ParquetRecord) :
    ((records.flatMap (fun rec => (f rec).map SinkEvent.write)).countP isWriteEvent)
      = (records.map (fun rec => (f rec).length)).sum := by
  induction records with
  | nil => rfl
  | cons r t ih =>
      rw [List.flatMap_cons, List.countP_append, ih, List.map_cons, List.sum_cons,
        List.countP_map]
      congr 1
      have hcomp : (isWriteEvent ∘ SinkEvent.write) = fun (_ : ParquetRecord) => true :=
        funext (fun r => rfl)
      rw [hcomp, List.countP_true]

/-- The number of rows written for one processed record: one when nothing
matched, one per matched marker otherwise. -/
theorem rowsForRecord_length (seq id : Str) (sankets : List SanketInfo)
    (avg : GoFloat) (tr : Int) :
    (rowsForResult (processRecord seq id sankets avg tr)).length
      = (if (sankets.filter (fun i => strContains seq i.Sanket)).length = 0 then 1
         else (sankets.filter (fun i => strContains seq i.Sanket)).length) := by
  rw [rowsForResult_length, processRecord_MatchesFound, processRecord_Matches,
    List.length_map]
  cases h : sankets.any (fun i => strContains seq i.Sanket)
  · have hfilter : (sankets.filter (fun i => strContains seq i.Sanket)).length = 0 := by
      rw [List.length_eq_zero, List.filter_eq_nil_iff]
      intro a ha
      simpa using List.any_eq_false.mp h a ha
    simp [hfilter]
  · have hfilter : (sankets.filter (fun i => strContains seq i.Sanket)).length ≠ 0 := by
      rw [any_eq_not_isEmpty_filter] at h
      simp only [Bool.not_eq_true', List.isEmpty_eq_false] at h
      simpa [List.length_eq_zero] using h
    simp [hfilter]

end API

/-- Witness for C6 on a read matching nothing. -/
theorem no_match_single_sentinel_row_witness :
    API.rowsForResult (API.processRecord exSeqNoMatch exId [exM1] (GoFloat.fin 150) 1)
      = [ { SID := [], ReadID := exId, MatchedSanket := ("No Match Found").toList,
            Serotype := ("Unassigned").toList,
            GCPercentage := API.calculateGCPercentage exSeqNoMatch, TotalCoverage := 0,
            SLen := 0, SSRCount := [], MLenAvg := [], MRCAvg := [],
            PCount := [], PLenAvg := [], BScore := GoFloat.fin 0 } ]
    ∧ CLI.rowsForResult (CLI.processRecord exSeqNoMatch exId [exM1C])
      = [ { ReadID := exId, MatchedSanket := ("No Match Found").toList,
            Serotype := ("N/A").toList,
            GCPercentage := CLI.calculateGCPercentage exSeqNoMatch, TotalCoverage := 0,
            SLen := 0, SSRCount := [], MLenAvg := [], MRCAvg := [],
            PCount := [], PLenAvg := [], BScore := GoFloat.fin 0 } ] :=
  no_match_single_sentinel_row exSeqNoMatch exId [exM1] [exM1C] (GoFloat.fin 150) 1
    (by decide) (by decide)

set_option maxRecDepth 100000 in
/-- C8 counterexample: on the success path the Parquet WriteStop finalize
is reached twice (the explicit call after the join and the deferred call
registered at writer creation), not exactly once; and a single record
matching two markers produces two rows, so the row total is not N = 1. -/
theorem stream_finalize_twice_and_extra_rows :
    (API.processFastqStreamTrace exRecords exCatalog2 (GoFloat.fin 150) 1).countP API.isStopEvent = 2
    ∧ (API.processFastqStreamTrace exRecords exCatalog2 (GoFloat.fin 150) 1).countP API.isWriteEvent = 2
    ∧ exRecords.length = 1 := by
  refine ⟨by decide, by decide, by decide⟩

/-- C8 amended: a run over N records writes one sentinel row per no-match
record and one row per matched marker for every other record (a total
that exceeds N when a record matches several markers), all row writes
precede finalization, and the WriteStop finalize step is invoked twice on
the success path, not once. The trace is the sequentialized success path
of processFastqStream; the multiset of rows is interleaving-independent
because every worker finishes before the join. -/
theorem stream_trace_shape (records : List (Str × Str))
    (sankets : List API.SanketInfo) (avg : GoFloat) (tr : Int) :
    (API.processFastqStreamTrace records sankets avg tr).countP API.isStopEvent = 2
    ∧ (API.processFastqStreamTrace records sankets avg tr).countP API.isWriteEvent
        = (records.map (fun rec =>
            if (sankets.filter (fun i => strContains rec.2 i.Sanket)).length = 0 then 1
            else (sankets.filter (fun i => strContains rec.2 i.Sanket)).length)).sum
    ∧ ∃ ws, API.processFastqStreamTrace records sankets avg tr
          = ws ++ [API.SinkEvent.writeStop, API.SinkEvent.writeStop]
        ∧ ws.countP API.isStopEvent = 0 := by
  refine ⟨?_, ?_, ⟨_, rfl, API.countP_stop_write_flatMap records _⟩⟩
  · unfold API.processFastqStreamTrace
    rw [List.countP_append, API.countP_stop_write_flatMap]
    rfl
  · unfold API.processFastqStreamTrace
    rw [List.countP_append, API.countP_write_flatMap]
    have hmap : (records.map (fun rec =>
        (API.rowsForResult (API.processRecord rec.2 rec.1 sankets avg tr)).length))
        = records.map (fun rec =>
            if (sankets.filter (fun i => strContains rec.2 i.Sanket)).length = 0 then 1
            else (sankets.filter (fun i => strContains rec.2 i.Sanket)).length) :=
      List.map_congr_left (fun rec _ => API.rowsForRecord_length rec.2 rec.1 sankets avg tr)
    rw [hmap, show List.countP API.isWriteEvent
      [API.SinkEvent.writeStop, API.SinkEvent.writeStop] = 0 from rfl, Nat.add_zero]
